import Mathlib

/-
Shallow embedding of the VoiceProvider orchestrator from
src/packages/embed-react/src/index.ts of the empathic-voice-api-js
repository.

The provider owns two pieces of React state, the connection status and the
classified error, and coordinates five collaborators (voice client, sound
player, microphone, encoding, message store). We model the owned state
explicitly, model each collaborator call as an emitted event, and model the
asynchronous outcomes of collaborator operations (permission request,
transport connect, microphone start, player init) as parameters of a
connect-attempt environment.

React semantics reflected in the model:
- a callback reads the render-captured value of a state variable; calls to
  the state setter within one handler are queued and applied in order, so
  the last queued update wins and the captured variable never changes
  mid-handler;
- the watcher effect (lines 265-275 of the source) re-runs after the state
  updates of a handler or an await-resumption settle, so each modeled
  operation is followed by one evaluation of the watcher (it is idempotent:
  when it fires it sets status to "error", which falsifies its own guard).
-/

namespace VoiceEmbed

/-- VoiceError type tags: the three variants of the tagged union at lines
48-51 of the source. -/
inductive VoiceErrorType where
  | socket_error
  | audio_error
  | mic_error
deriving DecidableEq, Repr

/-- VoiceError: a type tag plus a human-readable message string. -/
structure VoiceError where
  type : VoiceErrorType
  message : String
deriving DecidableEq, Repr

/-- VoiceStatus as the raw record shape of the source (lines 53-61): a value
string and an optional reason string. The source type constrains which
combinations are legal; we keep the raw shape so that the well-formedness
invariant (claim C6) is a theorem about reachable states rather than a type
ascription. -/
structure VoiceStatus where
  value : String
  reason : Option String
deriving DecidableEq, Repr

/-- Microphone permission as reported by the encoding collaborator.
Modelled from the spec: useEncoding is not part of the provided source; per
spec section 6 the encoding collaborator yields permission granted or
denied. The source only ever compares the permission against the string
"denied". -/
inductive Permission where
  | granted
  | denied
deriving DecidableEq, Repr

/-- The live encoding parameters held in encodingRef.current (the encoding
collaborator negotiates these with the actual device). -/
structure EncodingState where
  sampleRate : Nat
  channelCount : Nat
deriving DecidableEq, Repr

/-- The session configuration passed to the voice client. sampleRate and
channels are the two fields the connect call overrides; rest stands for all
remaining fields produced by createConfig, carried through the spread
unchanged. -/
structure SessionConfig where
  sampleRate : Nat
  channels : Nat
  rest : String
deriving DecidableEq, Repr

/-- Collaborator calls observable during a run, in program order. -/
inductive Event where
  | onErrorCallback (e : VoiceError)
  | clientConnect (cfg : SessionConfig)
  | micStart
  | playerInit
  | clientDisconnect
  | playerStopAll
  | micStop
  | messageStoreDisconnect
deriving DecidableEq, Repr

/-- The state owned by the orchestrator: the status and error React state
variables (lines 108-113 of the source). -/
structure ProviderState where
  status : VoiceStatus
  error : Option VoiceError
deriving DecidableEq, Repr

/-- Initial state on mount: status disconnected, error null. -/
def initialState : ProviderState :=
  { status := { value := "disconnected", reason := none }, error := none }

/-- isError, line 114 of the source: error is not null. -/
def isError (err : Option VoiceError) : Bool :=
  err.isSome

/-- isMicrophoneError, line 115: optional-chained comparison of the error
type tag against mic_error. -/
def isMicrophoneError (err : Option VoiceError) : Bool :=
  match err with
  | some e => e.type == VoiceErrorType.mic_error
  | none => false

/-- isSocketError, line 116. -/
def isSocketError (err : Option VoiceError) : Bool :=
  match err with
  | some e => e.type == VoiceErrorType.socket_error
  | none => false

/-- isAudioError, line 117. -/
def isAudioError (err : Option VoiceError) : Bool :=
  match err with
  | some e => e.type == VoiceErrorType.audio_error
  | none => false

/-- Number of true values among three booleans; used to state that exactly
one derived error flag is set when an error is present. -/
def countTrue (a b c : Bool) : Nat :=
  a.toNat + b.toNat + c.toNat

/-- updateError (lines 124-129): store the error, and when it is non-null
invoke the user supplied onError callback once. -/
def updateError (err : Option VoiceError) (s : ProviderState) :
    ProviderState × List Event :=
  ( { s with error := err },
    match err with
    | some e => [Event.onErrorCallback e]
    | none => [] )

/-- disconnectFromVoice (lines 241-246): tear down the voice client, the
player, the microphone and the message store, in that order. -/
def disconnectFromVoiceEvents : List Event :=
  [Event.clientDisconnect, Event.playerStopAll, Event.micStop,
   Event.messageStoreDisconnect]

/-- The watcher effect (lines 265-275): when error is non-null and status is
neither "error" nor "disconnected", set status to an error status carrying
the error message and tear down all collaborators. -/
def reactToError (s : ProviderState) : ProviderState × List Event :=
  match s.error with
  | some e =>
      if s.status.value ≠ "error" ∧ s.status.value ≠ "disconnected" then
        ( { s with status := { value := "error", reason := some e.message } },
          disconnectFromVoiceEvents )
      else (s, [])
  | none => (s, [])

/-- The merged configuration of the transport connect call (lines 212-216):
spread of the user config with sampleRate and channels overridden by the
live encoding values. -/
def mergeConfig (cfg : SessionConfig) (enc : EncodingState) : SessionConfig :=
  { cfg with sampleRate := enc.sampleRate, channels := enc.channelCount }

/-- Outcomes of the asynchronous collaborator operations awaited by one
connect() attempt: the permission result of getStream, whether the voice
client connect resolves (true) or rejects (false), and whether mic.start and
player.initPlayer settle fulfilled (true) or rejected (false). -/
structure ConnectEnv where
  permission : Permission
  transportOk : Bool
  micOk : Bool
  playerOk : Bool
deriving DecidableEq, Repr

/-- The body of connect() (lines 198-239), without the trailing watcher
evaluation: clear the error, set status to connecting, request the stream;
on denied permission record a mic_error and return; otherwise invoke the
voice client connect with the merged config; on rejection record a
socket_error and return; otherwise run mic.start and player.initPlayer under
a settle-all join (both are invoked regardless of the other settling
rejected) and set status to connected only when both settle fulfilled. -/
def connectBody (cfg : SessionConfig) (enc : EncodingState) (env : ConnectEnv)
    (s : ProviderState) : ProviderState × List Event :=
  let r1 := updateError none s
  let s2 := { r1.1 with status := { value := "connecting", reason := none } }
  match env.permission with
  | Permission.denied =>
      let r3 := updateError
        (some { type := VoiceErrorType.mic_error,
                message := "Microphone permission denied" }) s2
      (r3.1, r1.2 ++ r3.2)
  | Permission.granted =>
      let connectEv := Event.clientConnect (mergeConfig cfg enc)
      if env.transportOk then
        let evs := [connectEv, Event.micStart, Event.playerInit]
        if env.micOk && env.playerOk then
          ( { s2 with status := { value := "connected", reason := none } },
            r1.2 ++ evs )
        else (s2, r1.2 ++ evs)
      else
        let r3 := updateError
          (some { type := VoiceErrorType.socket_error,
                  message := "We could not connect to the voice. Please try again." }) s2
        (r3.1, r1.2 ++ [connectEv] ++ r3.2)

/-- One full connect() attempt: the body followed by the watcher effect
(which fires only when the body left a non-null error while the status is
still "connecting"). -/
def connectRun (cfg : SessionConfig) (enc : EncodingState) (env : ConnectEnv)
    (s : ProviderState) : ProviderState × List Event :=
  let r1 := connectBody cfg enc env s
  let r2 := reactToError r1.1
  (r2.1, r1.2 ++ r2.2)

/-- disconnect (lines 248-263). The status read by the guard is the
render-captured value, fixed for the whole call; the two setStatus calls are
queued and applied in order, so a setStatus in the final guard overwrites
the one from the permission-denied branch. disconnectOnError is an optional
boolean; an omitted argument behaves as false. -/
def disconnect (micPermission : Permission) (disconnectOnError : Bool)
    (s : ProviderState) : ProviderState × List Event :=
  let status0 := s.status
  let s1 := if micPermission = Permission.denied then
      { s with status := { value := "error",
                           reason := some "Microphone permission denied" } }
    else s
  let s2 := if status0.value ≠ "error" ∧ disconnectOnError = false then
      { s1 with status := { value := "disconnected", reason := none } }
    else s1
  (s2, disconnectFromVoiceEvents)

/-- One full disconnect() call: the handler followed by the watcher effect
re-evaluated against the updated state. -/
def disconnectRun (micPermission : Permission) (disconnectOnError : Bool)
    (s : ProviderState) : ProviderState × List Event :=
  let r1 := disconnect micPermission disconnectOnError s
  let r2 := reactToError r1.1
  (r2.1, r1.2 ++ r2.2)

/-- A collaborator-reported runtime error (socket, audio or mic callback,
lines 131-149 and 190-196 of the source): updateError with the classified
error, followed by the watcher effect. -/
def collabErrorRun (e : VoiceError) (s : ProviderState) :
    ProviderState × List Event :=
  let r1 := updateError (some e) s
  let r2 := reactToError r1.1
  (r2.1, r1.2 ++ r2.2)

/-- Top-level operations a consumer or collaborator can trigger. -/
inductive Action where
  | connectAct (env : ConnectEnv)
  | disconnectAct (micPermission : Permission) (disconnectOnError : Bool)
  | collabErrorAct (e : VoiceError)
deriving DecidableEq, Repr

/-- One step of the orchestrator state machine (events dropped). -/
def step (cfg : SessionConfig) (enc : EncodingState) (s : ProviderState) :
    Action → ProviderState
  | Action.connectAct env => (connectRun cfg enc env s).1
  | Action.disconnectAct mp f => (disconnectRun mp f s).1
  | Action.collabErrorAct e => (collabErrorRun e s).1

/-- The state after a sequence of operations starting from the mount
state. -/
def run (cfg : SessionConfig) (enc : EncodingState) (acts : List Action) :
    ProviderState :=
  acts.foldl (step cfg enc) initialState

/-- Well-formedness of a status record: the value is one of the four defined
states and a reason is present exactly when the value is "error". -/
def statusWF (st : VoiceStatus) : Prop :=
  (st.value = "disconnected" ∨ st.value = "connecting" ∨
   st.value = "connected" ∨ st.value = "error") ∧
  (st.reason.isSome ↔ st.value = "error")

instance (st : VoiceStatus) : Decidable (statusWF st) := by
  unfold statusWF; infer_instance

/-- Recognizer for the user onError callback events, used to count callback
invocations. -/
def isOnErrorEvent : Event → Bool
  | Event.onErrorCallback _ => true
  | _ => false

/-! Helper lemmas for the status well-formedness invariant. -/

theorem statusWF_reactToError {s : ProviderState} (h : statusWF s.status) :
    statusWF (reactToError s).1.status := by
  cases he : s.error with
  | none => simpa [reactToError, he] using h
  | some e =>
      by_cases hc : s.status.value ≠ "error" ∧ s.status.value ≠ "disconnected"
      · simp [reactToError, he, hc, statusWF]
      · simpa [reactToError, he, hc] using h

theorem statusWF_connectBody (cfg : SessionConfig) (enc : EncodingState)
    (env : ConnectEnv) (s : ProviderState) :
    statusWF (connectBody cfg enc env s).1.status := by
  obtain ⟨perm, t, m, p⟩ := env
  cases perm <;> cases t <;> cases m <;> cases p <;>
    simp [connectBody, updateError, statusWF]

theorem statusWF_disconnect (mp : Permission) (f : Bool) {s : ProviderState}
    (h : statusWF s.status) :
    statusWF (disconnect mp f s).1.status := by
  by_cases h1 : mp = Permission.denied <;>
    by_cases h2 : s.status.value ≠ "error" ∧ f = false
  · simp [disconnect, h1, h2, statusWF]
  · simp [disconnect, h1, h2, statusWF]
  · simp [disconnect, h1, h2, statusWF]
  · simpa [disconnect, h1, h2] using h

theorem statusWF_step (cfg : SessionConfig) (enc : EncodingState)
    {s : ProviderState} (h : statusWF s.status) (a : Action) :
    statusWF (step cfg enc s a).status := by
  cases a with
  | connectAct env =>
      exact statusWF_reactToError (statusWF_connectBody cfg enc env s)
  | disconnectAct mp f =>
      exact statusWF_reactToError (statusWF_disconnect mp f h)
  | collabErrorAct e =>
      exact statusWF_reactToError (s := (updateError (some e) s).1) h

/-- C1 counterexample: with microphone permission denied, a disconnect call
made while the captured status is "connecting" (reachable: a first connect
is denied, a second connect is in flight awaiting the stream, and the user
disconnects) with disconnectOnError false does NOT end in the error status
the claim predicts: the final guard of disconnect overwrites the queued
error status with "disconnected". -/
theorem C1_counterexample :
    ¬ ((disconnectRun Permission.denied false
          { status := { value := "connecting", reason := none },
            error := none }).1.status
        = { value := "error", reason := some "Microphone permission denied" }) := by
  decide

/-- C1 (amended): when the microphone permission is denied, disconnect
queues the error status with reason "Microphone permission denied", but the
final guard, which reads the render-captured status, overwrites it with
"disconnected" unless the captured status value was already "error" or
disconnectOnError is true. So the resulting status is the fixed error
status exactly when the status at call time was "error" or disconnectOnError
was passed as true; otherwise it is "disconnected". -/
theorem C1_disconnect_denied (s : ProviderState) (flag : Bool) :
    ((disconnectRun Permission.denied flag s).1.status
        = { value := "error", reason := some "Microphone permission denied" }
      ↔ (s.status.value = "error" ∨ flag = true))
    ∧ ((disconnectRun Permission.denied flag s).1.status
        = { value := "error", reason := some "Microphone permission denied" }
      ∨ (disconnectRun Permission.denied flag s).1.status
        = { value := "disconnected", reason := none }) := by
  by_cases hv : s.status.value = "error" <;> cases flag <;>
    cases he : s.error <;>
      simp [disconnectRun, disconnect, reactToError, hv, he]

/-- C1 witness: with permission denied and disconnectOnError true, the
amended claim yields the fixed error status. -/
theorem C1_disconnect_denied_witness :
    (disconnectRun Permission.denied true
        { status := { value := "connected", reason := none },
          error := none }).1.status
      = { value := "error", reason := some "Microphone permission denied" } :=
  (C1_disconnect_denied
      { status := { value := "connected", reason := none }, error := none }
      true).1.mpr (Or.inr rfl)

/-- C2: in a connect attempt where permission is granted and the transport
connect resolves, the final status is "connected" exactly when both the
microphone start and the player initialization settle fulfilled, and is left
at "connecting" otherwise; both startups are attempted (settle-all join)
whatever the outcome of the other. -/
theorem C2_connected_iff_both_fulfilled (cfg : SessionConfig)
    (enc : EncodingState) (m p : Bool) (s : ProviderState) :
    ((connectRun cfg enc ⟨Permission.granted, true, m, p⟩ s).1.status
        = { value := "connected", reason := none } ↔ (m = true ∧ p = true))
    ∧ ((connectRun cfg enc ⟨Permission.granted, true, m, p⟩ s).1.status
        = if m && p then { value := "connected", reason := none }
          else { value := "connecting", reason := none })
    ∧ Event.micStart ∈ (connectRun cfg enc ⟨Permission.granted, true, m, p⟩ s).2
    ∧ Event.playerInit
        ∈ (connectRun cfg enc ⟨Permission.granted, true, m, p⟩ s).2 := by
  cases m <;> cases p <;>
    simp [connectRun, connectBody, updateError, reactToError, mergeConfig]

/-- C2 witness: a concrete partial failure (player init rejected) leaves the
status at connecting while both startups were attempted. -/
theorem C2_connected_iff_both_fulfilled_witness :
    (connectRun ⟨8000, 1, "opts"⟩ ⟨16000, 2⟩
        ⟨Permission.granted, true, true, false⟩ initialState).1.status
      = { value := "connecting", reason := none }
    ∧ Event.micStart
        ∈ (connectRun ⟨8000, 1, "opts"⟩ ⟨16000, 2⟩
            ⟨Permission.granted, true, true, false⟩ initialState).2
    ∧ Event.playerInit
        ∈ (connectRun ⟨8000, 1, "opts"⟩ ⟨16000, 2⟩
            ⟨Permission.granted, true, true, false⟩ initialState).2 :=
  ⟨(C2_connected_iff_both_fulfilled ⟨8000, 1, "opts"⟩ ⟨16000, 2⟩ true false
      initialState).2.1,
   (C2_connected_iff_both_fulfilled ⟨8000, 1, "opts"⟩ ⟨16000, 2⟩ true false
      initialState).2.2.1,
   (C2_connected_iff_both_fulfilled ⟨8000, 1, "opts"⟩ ⟨16000, 2⟩ true false
      initialState).2.2.2⟩

/-- C3: whenever the error state is non-null while the status value is
"connecting" or "connected", the watcher effect on its own sets the status
to an error status carrying the error message and tears down the voice
client, the player, the microphone and the message store. -/
theorem C3_reactive_failover (s : ProviderState) (e : VoiceError)
    (he : s.error = some e)
    (hs : s.status.value = "connecting" ∨ s.status.value = "connected") :
    reactToError s
      = ({ s with status := { value := "error", reason := some e.message } },
         disconnectFromVoiceEvents) := by
  rcases hs with h | h <;> simp [reactToError, he, h]

/-- C3 witness: a concrete mid-stream socket failure while connected. -/
theorem C3_reactive_failover_witness :
    reactToError
        { status := { value := "connected", reason := none },
          error := some { type := VoiceErrorType.socket_error,
                          message := "lost connection" } }
      = ({ status := { value := "error", reason := some "lost connection" },
           error := some { type := VoiceErrorType.socket_error,
                           message := "lost connection" } },
         disconnectFromVoiceEvents) :=
  C3_reactive_failover _ _ rfl (Or.inr rfl)

/-- C4: a connect attempt in which the permission request yields denied ends
in the error status with reason "Microphone permission denied" (via the
recorded mic_error and the watcher effect), and the voice client connect is
never invoked during the attempt, whatever the other collaborator outcomes
would have been. -/
theorem C4_denied_short_circuit (cfg : SessionConfig) (enc : EncodingState)
    (t m p : Bool) (s : ProviderState) :
    (connectRun cfg enc ⟨Permission.denied, t, m, p⟩ s).1.status
      = { value := "error", reason := some "Microphone permission denied" }
    ∧ ∀ c : SessionConfig,
        Event.clientConnect c
          ∉ (connectRun cfg enc ⟨Permission.denied, t, m, p⟩ s).2 := by
  simp [connectRun, connectBody, updateError, reactToError,
    disconnectFromVoiceEvents]

/-- C4 witness: a concrete denied attempt ends in the fixed error status and
its trace holds no transport connect call. -/
theorem C4_denied_short_circuit_witness :
    (connectRun ⟨8000, 1, "opts"⟩ ⟨16000, 2⟩
        ⟨Permission.denied, true, true, true⟩ initialState).1.status
      = { value := "error", reason := some "Microphone permission denied" }
    ∧ Event.clientConnect (mergeConfig ⟨8000, 1, "opts"⟩ ⟨16000, 2⟩)
        ∉ (connectRun ⟨8000, 1, "opts"⟩ ⟨16000, 2⟩
            ⟨Permission.denied, true, true, true⟩ initialState).2 :=
  ⟨(C4_denied_short_circuit ⟨8000, 1, "opts"⟩ ⟨16000, 2⟩ true true true
      initialState).1,
   (C4_denied_short_circuit ⟨8000, 1, "opts"⟩ ⟨16000, 2⟩ true true true
      initialState).2 (mergeConfig ⟨8000, 1, "opts"⟩ ⟨16000, 2⟩)⟩

/-- C5: a connect attempt in which permission is granted but the transport
connect rejects ends in the error status with the fixed retry message, and
neither the microphone start nor the player initialization is invoked. -/
theorem C5_transport_reject (cfg : SessionConfig) (enc : EncodingState)
    (m p : Bool) (s : ProviderState) :
    (connectRun cfg enc ⟨Permission.granted, false, m, p⟩ s).1.status
      = { value := "error",
          reason := some "We could not connect to the voice. Please try again." }
    ∧ Event.micStart ∉ (connectRun cfg enc ⟨Permission.granted, false, m, p⟩ s).2
    ∧ Event.playerInit
        ∉ (connectRun cfg enc ⟨Permission.granted, false, m, p⟩ s).2 := by
  simp [connectRun, connectBody, updateError, reactToError,
    disconnectFromVoiceEvents]

/-- C5 witness: a concrete transport rejection ends in the fixed retry error
and neither startup appears in the trace. -/
theorem C5_transport_reject_witness :
    (connectRun ⟨8000, 1, "opts"⟩ ⟨16000, 2⟩
        ⟨Permission.granted, false, true, true⟩ initialState).1.status
      = { value := "error",
          reason := some "We could not connect to the voice. Please try again." }
    ∧ Event.micStart
        ∉ (connectRun ⟨8000, 1, "opts"⟩ ⟨16000, 2⟩
            ⟨Permission.granted, false, true, true⟩ initialState).2
    ∧ Event.playerInit
        ∉ (connectRun ⟨8000, 1, "opts"⟩ ⟨16000, 2⟩
            ⟨Permission.granted, false, true, true⟩ initialState).2 :=
  C5_transport_reject ⟨8000, 1, "opts"⟩ ⟨16000, 2⟩ true true initialState

/-- C6: along every sequence of connect calls, disconnect calls and
collaborator error events, the status is always one of the four defined
states, and a reason string is present exactly when the status value is
"error". -/
theorem C6_status_invariant (cfg : SessionConfig) (enc : EncodingState)
    (acts : List Action) : statusWF (run cfg enc acts).status := by
  have main : ∀ (l : List Action) (s : ProviderState), statusWF s.status →
      statusWF (l.foldl (step cfg enc) s).status := by
    intro l
    induction l with
    | nil => intro s h; exact h
    | cons a l ih => intro s h; exact ih _ (statusWF_step cfg enc h a)
  exact main acts initialState (by decide)

/-- C6 witness: a concrete session of a full connect, a collaborator error
and a disconnect keeps the status well formed. -/
theorem C6_status_invariant_witness :
    statusWF (run ⟨8000, 1, "opts"⟩ ⟨16000, 2⟩
      [Action.connectAct ⟨Permission.granted, true, true, true⟩,
       Action.collabErrorAct
         { type := VoiceErrorType.socket_error, message := "lost connection" },
       Action.disconnectAct Permission.granted false]).status :=
  C6_status_invariant ⟨8000, 1, "opts"⟩ ⟨16000, 2⟩
    [Action.connectAct ⟨Permission.granted, true, true, true⟩,
     Action.collabErrorAct
       { type := VoiceErrorType.socket_error, message := "lost connection" },
     Action.disconnectAct Permission.granted false]

/-- C7: every connect attempt that reaches the transport step invokes the
voice client connect exactly with the merged configuration: the user config
with sampleRate and channels overridden by the live encoding sample rate and
channel count, all other fields carried through unchanged. -/
theorem C7_merged_config (cfg : SessionConfig) (enc : EncodingState)
    (t m p : Bool) (s : ProviderState) :
    Event.clientConnect (mergeConfig cfg enc)
      ∈ (connectRun cfg enc ⟨Permission.granted, t, m, p⟩ s).2
    ∧ (∀ c : SessionConfig,
        Event.clientConnect c
            ∈ (connectRun cfg enc ⟨Permission.granted, t, m, p⟩ s).2 →
          c = mergeConfig cfg enc)
    ∧ (mergeConfig cfg enc).sampleRate = enc.sampleRate
    ∧ (mergeConfig cfg enc).channels = enc.channelCount
    ∧ (mergeConfig cfg enc).rest = cfg.rest := by
  cases t <;> cases m <;> cases p <;>
    simp [connectRun, connectBody, updateError, reactToError, mergeConfig,
      disconnectFromVoiceEvents]

/-- C7 witness: a concrete attempt whose transport call carries the merged
configuration. -/
theorem C7_merged_config_witness :
    Event.clientConnect (mergeConfig ⟨44100, 1, "opts"⟩ ⟨48000, 2⟩)
      ∈ (connectRun ⟨44100, 1, "opts"⟩ ⟨48000, 2⟩
          ⟨Permission.granted, true, true, true⟩ initialState).2
    ∧ (mergeConfig ⟨44100, 1, "opts"⟩ ⟨48000, 2⟩).sampleRate = 48000 :=
  ⟨(C7_merged_config ⟨44100, 1, "opts"⟩ ⟨48000, 2⟩ true true true
      initialState).1,
   (C7_merged_config ⟨44100, 1, "opts"⟩ ⟨48000, 2⟩ true true true
      initialState).2.2.1⟩

/-- C8: updateError stores its argument as the current error, leaves the
status untouched, and invokes the user onError callback exactly once when
the argument is non-null and never when it is null; when non-null the
emitted callback carries exactly that error. -/
theorem C8_updateError_spec (err : Option VoiceError) (s : ProviderState) :
    (updateError err s).1.error = err
    ∧ (updateError err s).1.status = s.status
    ∧ List.countP (fun ev => isOnErrorEvent ev) (updateError err s).2
        = (if err.isSome then 1 else 0)
    ∧ (∀ e : VoiceError, err = some e →
        (updateError err s).2 = [Event.onErrorCallback e]) := by
  cases err <;> simp [updateError, isOnErrorEvent]

/-- C8 witness: a concrete non-null error produces exactly one callback. -/
theorem C8_updateError_spec_witness :
    (updateError (some { type := VoiceErrorType.audio_error, message := "bad frame" })
        initialState).1.error
      = some { type := VoiceErrorType.audio_error, message := "bad frame" }
    ∧ (updateError (some { type := VoiceErrorType.audio_error, message := "bad frame" })
        initialState).2
      = [Event.onErrorCallback
          { type := VoiceErrorType.audio_error, message := "bad frame" }] :=
  ⟨(C8_updateError_spec (some ⟨VoiceErrorType.audio_error, "bad frame"⟩)
      initialState).1,
   (C8_updateError_spec (some ⟨VoiceErrorType.audio_error, "bad frame"⟩)
      initialState).2.2.2 _ rfl⟩

/-- C9: isError is true exactly when the error is non-null; exactly one of
the three kind flags is true when an error is present and none when it is
absent; and each flag is true exactly when the present error has the
matching type tag. -/
theorem C9_derived_flags (err : Option VoiceError) :
    (isError err = true ↔ err ≠ none)
    ∧ countTrue (isSocketError err) (isAudioError err) (isMicrophoneError err)
        = (if err.isSome then 1 else 0)
    ∧ (isSocketError err = true
        ↔ ∃ e, err = some e ∧ e.type = VoiceErrorType.socket_error)
    ∧ (isAudioError err = true
        ↔ ∃ e, err = some e ∧ e.type = VoiceErrorType.audio_error)
    ∧ (isMicrophoneError err = true
        ↔ ∃ e, err = some e ∧ e.type = VoiceErrorType.mic_error) := by
  cases err with
  | none =>
      simp [isError, isSocketError, isAudioError, isMicrophoneError, countTrue]
  | some e =>
      obtain ⟨t, msg⟩ := e
      cases t <;>
          simp [isError, isSocketError, isAudioError, isMicrophoneError,
            countTrue] <;>
        decide

/-- C9 witness: with a concrete mic error present, exactly one derived flag
is true. -/
theorem C9_derived_flags_witness :
    countTrue
        (isSocketError (some { type := VoiceErrorType.mic_error, message := "m" }))
        (isAudioError (some { type := VoiceErrorType.mic_error, message := "m" }))
        (isMicrophoneError
          (some { type := VoiceErrorType.mic_error, message := "m" })) = 1 :=
  (C9_derived_flags
      (some { type := VoiceErrorType.mic_error, message := "m" })).2.1

/-- C10: when the error state is non-null (or null) while the status value
is "disconnected" or "error", the watcher effect does not fire: the state is
unchanged and no teardown call is made. -/
theorem C10_no_failover_when_idle (s : ProviderState)
    (hs : s.status.value = "disconnected" ∨ s.status.value = "error") :
    reactToError s = (s, []) := by
  cases he : s.error with
  | none => simp [reactToError, he]
  | some e => rcases hs with h | h <;> simp [reactToError, he, h]

/-- C10 witness: a late socket error arriving while disconnected is kept in
the error state but triggers no transition and no teardown. -/
theorem C10_no_failover_when_idle_witness :
    reactToError
        { status := { value := "disconnected", reason := none },
          error := some { type := VoiceErrorType.socket_error,
                          message := "late failure" } }
      = ({ status := { value := "disconnected", reason := none },
           error := some { type := VoiceErrorType.socket_error,
                           message := "late failure" } }, []) :=
  C10_no_failover_when_idle _ (Or.inl rfl)

end VoiceEmbed
